import Mathlib

/-!
Verification development for the catchy_bot_dj lead-management CRM.

The definitions below are a shallow embedding of the repository's core:
the Lead state machine (`apps/leads/models.py`), its signal-driven
activity logging (`apps/leads/signals.py`), the lead views
(`apps/leads/views.py`), the tenant-scoped object lookup
(`apps/accounts/decorators.py`), the dashboard aggregation
(`apps/core/views.py`), the cached-counter rate methods
(`apps/accounts/models.py`) and the inbound WhatsApp webhook
(`apps/whatsapp/views.py`).

Database rows are records, tables are lists of records with the newest
row at the head (mirroring the `-created_at` default ordering used for
display), and each mutating endpoint is a function from state to state.
Timestamps are integer milliseconds.
-/

namespace CatchyBot

/-- A row of `accounts.User` (`apps/accounts/models.py`).  Only the fields
the core logic reads are kept; the three `total_leads_*` columns are the
cached performance counters (`PositiveIntegerField`, hence `Nat`). -/
structure UserR where
  id : Nat
  company : Option Nat
  role : String
  isSuperuser : Bool
  name : String
  totalLeadsAssigned : Nat
  totalLeadsConverted : Nat
  totalLeadsWon : Nat
deriving DecidableEq

/-- Embeds `User.is_admin()`: role is admin or the user is a superuser. -/
def isAdmin (u : UserR) : Bool :=
  u.role == "admin" || u.isSuperuser

/-- A row of `core.LeadStage`. -/
structure StageR where
  id : Nat
  name : String
  stageType : String
  isActive : Bool
deriving DecidableEq

/-- A row of `core.LeadSource`. -/
structure SourceR where
  id : Nat
  name : String
deriving DecidableEq

/-- A row of `leads.Lead`.  `stageId` is an `Option` because an in-memory
model instance may lack a stage before INSERT; the column itself is a
non-nullable foreign key, which `insertLead` enforces. -/
structure LeadR where
  id : Nat
  company : Nat
  name : String
  phone : String
  sourceId : Nat
  stageId : Option Nat
  status : String
  priority : String
  assignedTo : Option Nat
deriving DecidableEq

/-- A row of `leads.Activity` (append-only audit ledger). -/
structure ActivityR where
  leadId : Nat
  userId : Option Nat
  activityType : String
  description : String
  createdAt : Int
deriving DecidableEq

/-- A row of `leads.Note`. -/
structure NoteR where
  leadId : Nat
  userId : Option Nat
  content : String
  createdAt : Int
deriving DecidableEq

/-- A row of `whatsapp.Message`. -/
structure MessageR where
  leadId : Nat
  userId : Option Nat
  direction : String
  content : String
  mediaUrl : Option String
  mediaType : Option String
  status : String
  woztellMessageId : String
deriving DecidableEq

/-- A row of `whatsapp.Channel`. -/
structure ChannelR where
  companyId : Nat
  leadId : Nat
  channelType : String
  channelId : Option String
  unreadCount : Nat
  lastMessageAt : Option Int
deriving DecidableEq

/-- A row of `whatsapp.WoztellConfig`. -/
structure ConfigR where
  companyId : Nat
  webhookSecret : String
  channelId : String
  isActive : Bool
deriving DecidableEq

/-- The database state: one list per table, newest row first. -/
structure St where
  leads : List LeadR
  users : List UserR
  stages : List StageR
  sources : List SourceR
  activities : List ActivityR
  notes : List NoteR
  messages : List MessageR
  channels : List ChannelR
  configs : List ConfigR
  nextLeadId : Nat
  nextSourceId : Nat
deriving DecidableEq

/-- UPDATE of a Lead row by primary key (what `lead.save()` performs). -/
def saveLead (leads : List LeadR) (l : LeadR) : List LeadR :=
  leads.map (fun x => if x.id == l.id then l else x)

/-- UPDATE of a User row by primary key. -/
def updateUser (users : List UserR) (uid : Nat) (f : UserR → UserR) : List UserR :=
  users.map (fun u => if u.id == uid then f u else u)

/-- SELECT of a User row by primary key. -/
def getUser (st : St) (uid : Nat) : Option UserR :=
  st.users.find? (fun u => u.id == uid)

/-- Embeds the `Lead.STATUS_CHOICES` display lookup:
`dict(self.STATUS_CHOICES).get(s, s)`. -/
def statusDisplay (s : String) : String :=
  if s == "new" then "New"
  else if s == "contacted" then "Contacted"
  else if s == "qualified" then "Qualified"
  else if s == "converted" then "Converted"
  else if s == "won" then "Won"
  else if s == "lost" then "Lost"
  else s

/-- Stage name lookup used for activity descriptions. -/
def stageName (st : St) (sid : Option Nat) : String :=
  match sid with
  | some i => ((st.stages.find? (fun s => s.id == i)).map (fun s => s.name)).getD ""
  | none => ""

/-- Embeds `Lead.can_be_assigned()`: `self.status not in ['won', 'lost']`. -/
def canBeAssigned (l : LeadR) : Bool :=
  !(l.status == "won" || l.status == "lost")

/-- Embeds `Lead.assign_to(user, assigned_by=None)` from `leads/models.py`:
returns early with `False` when the lead cannot be assigned; otherwise
saves the new assignee, logs an `assigned` Activity attributed to
`assigned_by or user`, unconditionally increments the new assignee's
`total_leads_assigned`, and decrements the old assignee's counter
(clamped at 0 by `max(0, x - 1)`, which `Nat` subtraction models
exactly) only when the old assignee differs from the new one. -/
def assignTo (st : St) (lead : LeadR) (user : UserR) (assignedBy : Option UserR)
    (now : Int) : St × Bool :=
  if !canBeAssigned lead then (st, false)
  else
    let oldAssignee := lead.assignedTo
    let lead1 := { lead with assignedTo := some user.id }
    let act : ActivityR :=
      { leadId := lead.id, userId := some ((assignedBy.getD user).id),
        activityType := "assigned",
        description := "Assigned to " ++ user.name, createdAt := now }
    let users1 := updateUser st.users user.id
      (fun u => { u with totalLeadsAssigned := u.totalLeadsAssigned + 1 })
    let users2 :=
      match oldAssignee with
      | some old =>
        if old ≠ user.id then
          updateUser users1 old
            (fun u => { u with totalLeadsAssigned := u.totalLeadsAssigned - 1 })
        else users1
      | none => users1
    ({ st with leads := saveLead st.leads lead1,
               activities := act :: st.activities,
               users := users2 }, true)

/-- Embeds `Lead.change_status(new_status, user=None)`: saves the new status
unconditionally (no transition-legality check), increments the
assignee's `total_leads_converted` or `total_leads_won` counter when
the new status is `converted` resp. `won`, then logs a
`status_changed` Activity. -/
def changeStatus (st : St) (lead : LeadR) (newStatus : String) (user : Option UserR)
    (now : Int) : St :=
  let oldStatus := lead.status
  let lead1 := { lead with status := newStatus }
  let users1 :=
    match lead.assignedTo with
    | some a =>
      if newStatus == "converted" then
        updateUser st.users a
          (fun u => { u with totalLeadsConverted := u.totalLeadsConverted + 1 })
      else if newStatus == "won" then
        updateUser st.users a
          (fun u => { u with totalLeadsWon := u.totalLeadsWon + 1 })
      else st.users
    | none => st.users
  let act : ActivityR :=
    { leadId := lead.id, userId := user.map (fun u => u.id),
      activityType := "status_changed",
      description := "Status changed from " ++ statusDisplay oldStatus
        ++ " to " ++ statusDisplay newStatus,
      createdAt := now }
  { st with leads := saveLead st.leads lead1,
            users := users1,
            activities := act :: st.activities }

/-- Embeds `Lead.change_stage(new_stage, user=None)`: saves the new stage and
logs a `stage_changed` Activity naming old and new stage. -/
def changeStage (st : St) (lead : LeadR) (newStage : StageR) (user : Option UserR)
    (now : Int) : St :=
  let lead1 := { lead with stageId := some newStage.id }
  let act : ActivityR :=
    { leadId := lead.id, userId := user.map (fun u => u.id),
      activityType := "stage_changed",
      description := "Stage changed from " ++ stageName st lead.stageId
        ++ " to " ++ newStage.name,
      createdAt := now }
  { st with leads := saveLead st.leads lead1,
            activities := act :: st.activities }

/-- The recent-activity probe of the `log_note_creation` signal
(`leads/signals.py`): is there a `note_added` Activity for this lead in
the last second (`created_at >= now - 1s`)? -/
def recentNoteActivity (acts : List ActivityR) (leadId : Nat) (now : Int) : Bool :=
  acts.any (fun a =>
    a.leadId == leadId && a.activityType == "note_added" && a.createdAt ≥ now - 1000)

/-- Embeds `Lead.add_note(content, user)` together with the `post_save` signal
on `Note` (`log_note_creation`).  `Note.objects.create` fires the signal
synchronously, so the signal's dedup check runs (and possibly writes its
own `note_added` Activity) before `add_note` writes its own,
unconditional `note_added` Activity. -/
def addNote (st : St) (lead : LeadR) (content : String) (user : UserR)
    (now : Int) : St :=
  let note : NoteR :=
    { leadId := lead.id, userId := some user.id, content := content, createdAt := now }
  let signalActs :=
    if !recentNoteActivity st.activities lead.id now then
      ({ leadId := lead.id, userId := some user.id, activityType := "note_added",
         description := "Added a note", createdAt := now } : ActivityR) :: st.activities
    else st.activities
  let methodActs :=
    ({ leadId := lead.id, userId := some user.id, activityType := "note_added",
       description := "Added a note", createdAt := now } : ActivityR) :: signalActs
  { st with notes := note :: st.notes, activities := methodActs }

/-- INSERT of a Lead row.  `leads/models.py` declares `stage` as a
non-nullable foreign key and `unique_together = ['company', 'phone']`,
so an INSERT with no stage, or with a (company, phone) pair that already
exists, raises and nothing is written.  On success the `post_save`
signal `create_lead_activity` logs a system `created` Activity. -/
def insertLead (st : St) (l : LeadR) (now : Int) : Option St :=
  match l.stageId with
  | none => none
  | some _ =>
    if st.leads.any (fun x => x.company == l.company && x.phone == l.phone) then none
    else
      some { st with
        leads := l :: st.leads,
        nextLeadId := st.nextLeadId + 1,
        activities :=
          ({ leadId := l.id, userId := none, activityType := "created",
             description := "Lead created", createdAt := now } : ActivityR)
            :: st.activities }

/-- Embeds `lead_create_view` (POST branch, valid form) from `leads/views.py`:
builds the lead from the form, defaults `assigned_to` to the requesting
user, saves it (which fires the `created` signal Activity), then logs a
second, explicit `created` Activity and increments the assignee's
`total_leads_assigned`.  `company` is `request.user.company` as resolved
by the `company_required` decorator.  On an insert error the exception
handler shows a message and nothing is committed. -/
def leadCreateView (st : St) (company : Nat) (actor : UserR)
    (name phone : String) (sourceId stageId : Nat) (status priority : String)
    (assignedTo : Option Nat) (now : Int) : St × Bool :=
  let asg := assignedTo.getD actor.id
  let lead : LeadR :=
    { id := st.nextLeadId, company := company, name := name, phone := phone,
      sourceId := sourceId, stageId := some stageId, status := status,
      priority := priority, assignedTo := some asg }
  match insertLead st lead now with
  | none => (st, false)
  | some st1 =>
    let st2 := { st1 with
      activities :=
        ({ leadId := lead.id, userId := some actor.id, activityType := "created",
           description := "Lead created by " ++ actor.name,
           createdAt := now } : ActivityR) :: st1.activities,
      users := updateUser st1.users asg
        (fun u => { u with totalLeadsAssigned := u.totalLeadsAssigned + 1 }) }
    (st2, true)

/-- Embeds `lead_delete_view` from `leads/views.py` (admin-only, POST): rejects
won leads outright; otherwise soft-deletes by setting
`status = 'deleted'` and logs a `status_changed` Activity. -/
def leadDeleteView (st : St) (lead : LeadR) (actor : UserR) (now : Int) : St × Bool :=
  if lead.status == "won" then (st, false)
  else
    let lead1 := { lead with status := "deleted" }
    let act : ActivityR :=
      { leadId := lead.id, userId := some actor.id, activityType := "status_changed",
        description := "Lead deleted by " ++ actor.name, createdAt := now }
    ({ st with leads := saveLead st.leads lead1,
               activities := act :: st.activities }, true)

/-- The queryset `Lead.objects.filter(pk__in=lead_ids, company=...)` of
`lead_bulk_actions_view`.  It never looks at `status`. -/
def bulkSelection (st : St) (ids : List Nat) (company : Nat) : List LeadR :=
  st.leads.filter (fun l => ids.contains l.id && l.company == company)

/-- The `action == 'delete'` arm of `lead_bulk_actions_view`: errors on
an empty selection, requires an admin, then runs
`leads.update(status='deleted')` on the whole selection — with no check
for won leads — and logs one `status_changed` Activity per selected
lead.  (The queryset is re-evaluated for the logging loop, but its
filter does not involve `status`, so it selects the same rows.) -/
def bulkDeleteAction (st : St) (ids : List Nat) (actor : UserR) (company : Nat)
    (now : Int) : St × Bool :=
  let sel := bulkSelection st ids company
  if sel.length == 0 then (st, false)
  else if !isAdmin actor then (st, false)
  else
    let leads1 := st.leads.map (fun l =>
      if ids.contains l.id && l.company == company then { l with status := "deleted" }
      else l)
    let newActs := sel.map (fun l =>
      ({ leadId := l.id, userId := some actor.id, activityType := "status_changed",
         description := "Lead deleted (bulk action)", createdAt := now } : ActivityR))
    ({ st with leads := leads1, activities := newActs ++ st.activities }, true)

/-- Base queryset of `lead_list_view`:
`Lead.objects.filter(company=company).exclude(status='deleted')`. -/
def leadListQuery (st : St) (company : Nat) : List LeadR :=
  st.leads.filter (fun l => l.company == company && !(l.status == "deleted"))

/-- Base queryset of `lead_kanban_view`: identical company filter and
`status='deleted'` exclusion. -/
def leadKanbanQuery (st : St) (company : Nat) : List LeadR :=
  st.leads.filter (fun l => l.company == company && !(l.status == "deleted"))

/-- Outcome of fetching an object by id on behalf of a tenant-scoped
caller. -/
inductive FetchOutcome where
  | found (l : LeadR)
  | notFound
deriving DecidableEq

/-- The company-filtered primary-key lookup shared by
`get_object_or_404(Lead, pk=pk, company=request.user.company)` in
`lead_detail_view` and by the `same_company_required` decorator
(`accounts/decorators.py`): a row that exists in another company raises
the same `DoesNotExist`/404 as a missing row. -/
def getObjectOr404 (st : St) (company pk : Nat) : FetchOutcome :=
  match st.leads.find? (fun l => l.id == pk && l.company == company) with
  | some l => .found l
  | none => .notFound

/-- Case-insensitive string equality (the `__iexact` lookup), realized
by lowering both character lists. -/
def iexact (a b : String) : Bool :=
  a.data.map Char.toLower == b.data.map Char.toLower

/-- Does this lead's stage have the given name, case-insensitively
(the `stage__name__iexact` lookup)? -/
def stageNameIs (st : St) (l : LeadR) (nm : String) : Bool :=
  match l.stageId with
  | some sid =>
    match st.stages.find? (fun s => s.id == sid) with
    | some s => iexact s.name nm
    | none => false
  | none => false

/-- Base queryset of `dashboard_view` (`core/views.py`):
`Lead.objects.filter(company=company).exclude(stage__name__iexact='delete')
.exclude(stage__name__iexact='deleted')` — note it excludes by STAGE
NAME, not by `status='deleted'`. -/
def dashboardLeadsQs (st : St) (company : Nat) : List LeadR :=
  st.leads.filter (fun l =>
    l.company == company && !(stageNameIs st l "delete") && !(stageNameIs st l "deleted"))

/-- The `converted_stages` queryset of `dashboard_view`. -/
def isConvertedStage (s : StageR) : Bool :=
  (s.stageType == "converted" || iexact s.name "converted"
    || iexact s.name "patient") && s.isActive

/-- The `won_stages` queryset of `dashboard_view`. -/
def isWonStage (s : StageR) : Bool :=
  (s.stageType == "won" || iexact s.name "won") && s.isActive

/-- Embeds the `stage__in=<stages>` membership test for a lead. -/
def leadStageIn (st : St) (l : LeadR) (p : StageR → Bool) : Bool :=
  st.stages.any (fun s => p s && l.stageId == some s.id)

/-- The per-actor performance numbers of `dashboard_view`. -/
structure DashStats where
  assigned : Nat
  converted : Nat
  won : Nat
  conversionRate : ℚ
  winRate : ℚ
deriving DecidableEq

/-- The live per-actor performance computation of `dashboard_view`
(`core/views.py`): admins (and superusers) aggregate over all company
leads, agents over their own assigned leads; `converted`/`won` are
decided by membership in the dynamically matched stages; both rates are
`count / assigned * 100` with an explicit `assigned > 0` guard. -/
def dashboardUserStats (st : St) (company : Nat) (requestUser : UserR) : DashStats :=
  let userAssignedLeads :=
    if isAdmin requestUser || requestUser.isSuperuser then
      st.leads.filter (fun l => l.company == company)
    else
      st.leads.filter (fun l =>
        l.assignedTo == some requestUser.id && l.company == company)
  let assigned := userAssignedLeads.length
  let converted :=
    (userAssignedLeads.filter (fun l => leadStageIn st l isConvertedStage)).length
  let won := (userAssignedLeads.filter (fun l => leadStageIn st l isWonStage)).length
  let conversionPercentage : ℚ :=
    if assigned > 0 then (converted : ℚ) / (assigned : ℚ) * 100 else 0
  let winPercentage : ℚ :=
    if assigned > 0 then (won : ℚ) / (assigned : ℚ) * 100 else 0
  { assigned := assigned, converted := converted, won := won,
    conversionRate := conversionPercentage, winRate := winPercentage }

/-- Embeds `User.get_conversion_rate()` (`accounts/models.py`): cached-counter
rate with an early `return 0.0` when nothing was assigned. -/
def getConversionRate (u : UserR) : ℚ :=
  if u.totalLeadsAssigned = 0 then 0
  else (u.totalLeadsConverted : ℚ) / (u.totalLeadsAssigned : ℚ) * 100

/-- Embeds `User.get_win_rate()` (`accounts/models.py`). -/
def getWinRate (u : UserR) : ℚ :=
  if u.totalLeadsAssigned = 0 then 0
  else (u.totalLeadsWon : ℚ) / (u.totalLeadsAssigned : ℚ) * 100

/-- Embeds `LeadSource.objects.get_or_create(name='WhatsApp', ...)` in the
webhook: returns the state (possibly with a new source row) and the
source id. -/
def getOrCreateSource (st : St) (nm : String) : St × Nat :=
  match st.sources.find? (fun s => s.name == nm) with
  | some s => (st, s.id)
  | none =>
    ({ st with sources := ({ id := st.nextSourceId, name := nm } : SourceR) :: st.sources,
               nextSourceId := st.nextSourceId + 1 }, st.nextSourceId)

/-- Embeds `Channel.objects.get_or_create(...)` followed by
`channel.increment_unread()` and `channel.update_last_message()`
(webhook steps 8–9). -/
def channelUpsert (st : St) (company leadId : Nat) (channelId : String)
    (now : Int) : St :=
  match st.channels.find? (fun ch =>
      ch.companyId == company && ch.leadId == leadId && ch.channelType == "whatsapp") with
  | some ch =>
    let ch1 := { ch with unreadCount := ch.unreadCount + 1, lastMessageAt := some now }
    { st with channels := st.channels.map (fun x =>
        if x.companyId == company && x.leadId == leadId && x.channelType == "whatsapp"
        then ch1 else x) }
  | none =>
    let ch1 : ChannelR :=
      { companyId := company, leadId := leadId, channelType := "whatsapp",
        channelId := some channelId, unreadCount := 0 + 1, lastMessageAt := some now }
    { st with channels := ch1 :: st.channels }

/-- Steps 7–9 of the webhook once a lead is at hand: unconditionally
create the incoming Message row (carrying the provider id with no
dedup lookup), then upsert the channel. -/
def webhookStoreMessage (st : St) (config : ConfigR) (lead : LeadR)
    (message messageId : String) (mediaUrl mediaType : Option String)
    (now : Int) : St :=
  let msg : MessageR :=
    { leadId := lead.id, userId := none, direction := "incoming",
      content := if message != "" then message else "[Media]",
      mediaUrl := mediaUrl, mediaType := mediaType,
      status := "delivered", woztellMessageId := messageId }
  let st1 := { st with messages := msg :: st.messages }
  channelUpsert st1 config.companyId lead.id config.channelId now

/-- Embeds `webhook_receiver` (`whatsapp/views.py`): validate the secret and
payload, find-or-create the lead by `(company, phone)`, update its name
when a different non-empty name arrives, store the incoming Message and
bump the channel — all in one transaction, so an exception (e.g. the
new-lead INSERT violating the NOT NULL `stage` column, since the
`get_or_create` defaults supply no stage) rolls everything back and the
outer handler answers 500.  The returned `Nat` is the HTTP status. -/
def webhookReceiver (st : St) (webhookSecret phone name message messageId : String)
    (mediaUrl mediaType : Option String) (now : Int) : St × Nat :=
  match st.configs.find? (fun c => c.webhookSecret == webhookSecret && c.isActive) with
  | none => (st, 401)
  | some config =>
    if phone == "" then (st, 400)
    else if message == "" && mediaUrl == none then (st, 400)
    else
      let (stSrc, sourceId) := getOrCreateSource st "WhatsApp"
      match stSrc.leads.find? (fun l =>
          l.company == config.companyId && l.phone == phone) with
      | some lead =>
        let (lead1, leads1) :=
          if name != "" && lead.name != name then
            let l1 := { lead with name := name }
            (l1, saveLead stSrc.leads l1)
          else (lead, stSrc.leads)
        let st1 := { stSrc with leads := leads1 }
        (webhookStoreMessage st1 config lead1 message messageId mediaUrl mediaType now, 200)
      | none =>
        let newLead : LeadR :=
          { id := stSrc.nextLeadId, company := config.companyId,
            name := if name != "" then name else "WhatsApp User " ++ phone.takeRight 4,
            phone := phone, sourceId := sourceId,
            stageId := none,  -- the get_or_create defaults do not set a stage
            status := "new", priority := "medium", assignedTo := none }
        match insertLead stSrc newLead now with
        | none => (st, 500)
        | some st1 =>
          (webhookStoreMessage st1 config newLead message messageId mediaUrl mediaType now, 200)

/-- Number of Activity rows recorded for a lead. -/
def actCount (st : St) (leadId : Nat) : Nat :=
  (st.activities.filter (fun a => a.leadId == leadId)).length

/-- Number of `note_added` Activity rows recorded for a lead. -/
def noteActCount (st : St) (leadId : Nat) : Nat :=
  (st.activities.filter (fun a =>
    a.leadId == leadId && a.activityType == "note_added")).length

/-- Number of Note rows for a lead. -/
def noteCount (st : St) (leadId : Nat) : Nat :=
  (st.notes.filter (fun n => n.leadId == leadId)).length

/-- The `activity_type` of the most recent Activity for a lead
(activities are ordered newest first). -/
def latestActType (st : St) (leadId : Nat) : Option String :=
  ((st.activities.filter (fun a => a.leadId == leadId)).head?).map
    (fun a => a.activityType)

/-- Number of Lead rows for a `(company, phone)` pair. -/
def leadCountByPhone (st : St) (company : Nat) (phone : String) : Nat :=
  (st.leads.filter (fun l => l.company == company && l.phone == phone)).length

/-- Number of Message rows carrying a given provider message id. -/
def msgCountByWid (st : St) (wid : String) : Nat :=
  (st.messages.filter (fun m => m.woztellMessageId == wid)).length

/-! ## Generic lookup lemmas -/

/-- A `find?` by user id commutes with an id-preserving row map. -/
lemma find?_userMap (g : UserR → UserR) (hg : ∀ x, (g x).id = x.id)
    (l : List UserR) (i : Nat) :
    (l.map g).find? (fun u => u.id == i) = (l.find? (fun u => u.id == i)).map g := by
  induction l with
  | nil => rfl
  | cons x xs ih =>
    by_cases h : x.id = i
    · simp [List.find?_cons, hg, h]
    · simp [List.find?_cons, hg, h, ih]

/-- A `find?` by lead id commutes with an id-preserving row map. -/
lemma find?_leadMap (g : LeadR → LeadR) (hg : ∀ x, (g x).id = x.id)
    (l : List LeadR) (i : Nat) :
    (l.map g).find? (fun x => x.id == i) = (l.find? (fun x => x.id == i)).map g := by
  induction l with
  | nil => rfl
  | cons x xs ih =>
    by_cases h : x.id = i
    · simp [List.find?_cons, hg, h]
    · simp [List.find?_cons, hg, h, ih]

/-- Updating user `x` rewrites the row that a lookup of `x` returns. -/
lemma getUser_updateUser_self (users : List UserR) (x : Nat) (f : UserR → UserR)
    (hf : ∀ u, (f u).id = u.id) :
    (updateUser users x f).find? (fun u => u.id == x)
      = (users.find? (fun u => u.id == x)).map f := by
  rw [updateUser, find?_userMap _ (by intro u; by_cases h : u.id = x <;> simp [h, hf])]
  cases hfind : users.find? (fun u => u.id == x) with
  | none => rfl
  | some u =>
    have hu := List.find?_some hfind
    simp only [beq_iff_eq] at hu
    simp [hu]

/-- Updating user `y` leaves a lookup of a different user `x` unchanged. -/
lemma getUser_updateUser_other (users : List UserR) (x y : Nat) (f : UserR → UserR)
    (hf : ∀ u, (f u).id = u.id) (hxy : x ≠ y) :
    (updateUser users y f).find? (fun u => u.id == x)
      = users.find? (fun u => u.id == x) := by
  rw [updateUser, find?_userMap _ (by intro u; by_cases h : u.id = y <;> simp [h, hf])]
  cases hfind : users.find? (fun u => u.id == x) with
  | none => rfl
  | some u =>
    have hu := List.find?_some hfind
    simp only [beq_iff_eq] at hu
    have hne : ¬ u.id = y := by rw [hu]; exact hxy
    simp [hne]

/-! ## Sample fixtures used by witnesses and counterexamples -/

/-- A stage of type `lead` named `Lead`. -/
def leadStage : StageR := { id := 10, name := "Lead", stageType := "lead", isActive := true }

/-- A stage of type `patient` named `Patient`. -/
def patientStage : StageR :=
  { id := 11, name := "Patient", stageType := "patient", isActive := true }

/-- An agent in company 1 with some accumulated counters. -/
def agentX : UserR :=
  { id := 7, company := some 1, role := "agent", isSuperuser := false, name := "Agent X",
    totalLeadsAssigned := 5, totalLeadsConverted := 2, totalLeadsWon := 1 }

/-- A second agent in company 1. -/
def agentY : UserR :=
  { id := 8, company := some 1, role := "agent", isSuperuser := false, name := "Agent Y",
    totalLeadsAssigned := 3, totalLeadsConverted := 0, totalLeadsWon := 0 }

/-- An admin in company 1. -/
def adminU : UserR :=
  { id := 9, company := some 1, role := "admin", isSuperuser := false, name := "Admin",
    totalLeadsAssigned := 0, totalLeadsConverted := 0, totalLeadsWon := 0 }

/-- An agent with no leads assigned yet. -/
def freshAgent : UserR :=
  { id := 12, company := some 1, role := "agent", isSuperuser := false, name := "Fresh",
    totalLeadsAssigned := 0, totalLeadsConverted := 0, totalLeadsWon := 0 }

/-- A webhook configuration for company 1. -/
def cfg1 : ConfigR :=
  { companyId := 1, webhookSecret := "sek", channelId := "CH_TEST", isActive := true }

/-- A lead in company 1 assigned to agent 7. -/
def lead1 : LeadR :=
  { id := 1, company := 1, name := "Ahmed Ali", phone := "+201234567890", sourceId := 5,
    stageId := some 10, status := "new", priority := "medium", assignedTo := some 7 }

/-- A won lead in company 1. -/
def wonLead : LeadR :=
  { id := 2, company := 1, name := "Winner", phone := "+201111111111", sourceId := 5,
    stageId := some 11, status := "won", priority := "medium", assignedTo := some 7 }

/-- A soft-deleted lead in company 1 whose stage is still named `Lead`. -/
def deletedLead : LeadR :=
  { id := 3, company := 1, name := "Gone", phone := "+201222222222", sourceId := 5,
    stageId := some 10, status := "deleted", priority := "medium", assignedTo := none }

/-- A converted lead in company 1 assigned to agent 7. -/
def convLead : LeadR :=
  { id := 4, company := 1, name := "Conv", phone := "+201333333333", sourceId := 5,
    stageId := some 11, status := "converted", priority := "medium", assignedTo := some 7 }

/-- A lead living in company 2. -/
def otherCompanyLead : LeadR :=
  { id := 6, company := 2, name := "Foreign", phone := "+201444444444", sourceId := 5,
    stageId := some 10, status := "new", priority := "medium", assignedTo := none }

/-- A concrete base state exercising every table. -/
def baseSt : St :=
  { leads := [lead1, wonLead, deletedLead, convLead, otherCompanyLead],
    users := [agentX, agentY, adminU, freshAgent],
    stages := [leadStage, patientStage],
    sources := [{ id := 5, name := "WhatsApp" }],
    activities := [], notes := [], messages := [], channels := [],
    configs := [cfg1], nextLeadId := 20, nextSourceId := 100 }

/-! ## C2 — assigning a won/lost lead is a rejected no-op -/

/-- C2: for every lead whose status is `won` or `lost`, `assign_to`
returns `False` and leaves the entire database state unchanged: no new
Activity row and no change to any counter (the guard returns before any
write). -/
theorem assign_rejected_on_closed (st : St) (lead : LeadR) (user : UserR)
    (assignedBy : Option UserR) (now : Int)
    (h : lead.status = "won" ∨ lead.status = "lost") :
    assignTo st lead user assignedBy now = (st, false) := by
  have hc : canBeAssigned lead = false := by
    rcases h with h | h <;> simp [canBeAssigned, h]
  simp [assignTo, hc]

/-- Witness for C2 on the concrete won lead of `baseSt`. -/
theorem assign_rejected_on_closed_witness :
    assignTo baseSt wonLead agentY (some adminU) 0 = (baseSt, false) :=
  assign_rejected_on_closed baseSt wonLead agentY (some adminU) 0 (Or.inl rfl)

/-! ## C3 — counter arithmetic of reassignment -/

/-- C3 counterexample: reassigning `lead1` to its current assignee
(user 7, counter 5) succeeds and still increments the assignee's
`total_leads_assigned` to 6, contradicting the claim that neither
counter changes when the previous assignee already equals the target. -/
theorem reassign_same_user_counter_cex :
    (assignTo baseSt lead1 agentX (some adminU) 0).2 = true ∧
    ((getUser (assignTo baseSt lead1 agentX (some adminU) 0).1 7).map
      (fun u => u.totalLeadsAssigned)) = some 6 ∧
    ¬ ((getUser (assignTo baseSt lead1 agentX (some adminU) 0).1 7).map
      (fun u => u.totalLeadsAssigned)) = some 5 := by
  refine ⟨by decide, by decide, by decide⟩

/-- C3 (amended): on a successful `assign_to` of user `y`, when a
different user `x` was previously assigned, `x` loses 1 (floored at 0,
which `Nat` subtraction realizes) and `y` gains 1; when the previous
assignee is `y` itself, `y`'s counter is still incremented by 1 (the
increment is unconditional in the source). -/
theorem reassign_counter_update (st : St) (lead : LeadR) (x : Nat) (y : UserR)
    (ux uy : UserR) (assignedBy : Option UserR) (now : Int)
    (hassign : lead.assignedTo = some x)
    (hcan : canBeAssigned lead = true)
    (hux : getUser st x = some ux) (huy : getUser st y.id = some uy) :
    (x ≠ y.id →
      getUser (assignTo st lead y assignedBy now).1 x
        = some { ux with totalLeadsAssigned := ux.totalLeadsAssigned - 1 } ∧
      getUser (assignTo st lead y assignedBy now).1 y.id
        = some { uy with totalLeadsAssigned := uy.totalLeadsAssigned + 1 }) ∧
    (x = y.id →
      getUser (assignTo st lead y assignedBy now).1 y.id
        = some { uy with totalLeadsAssigned := uy.totalLeadsAssigned + 1 }) := by
  constructor
  · intro hne
    rw [getUser] at hux huy
    constructor
    · show ((assignTo st lead y assignedBy now).1.users.find? (fun u => u.id == x)) = _
      simp only [assignTo, hcan, hassign, Bool.not_true, if_neg, Bool.false_eq_true,
        not_false_iff, if_false]
      simp only [hne, ne_eq, not_false_iff, if_true]
      rw [getUser_updateUser_self _ x
        (fun u => { u with totalLeadsAssigned := u.totalLeadsAssigned - 1 }) (fun u => rfl)]
      rw [getUser_updateUser_other _ x y.id
        (fun u => { u with totalLeadsAssigned := u.totalLeadsAssigned + 1 }) (fun u => rfl) hne]
      rw [hux]
      rfl
    · show ((assignTo st lead y assignedBy now).1.users.find? (fun u => u.id == y.id)) = _
      simp only [assignTo, hcan, hassign, Bool.not_true, Bool.false_eq_true,
        not_false_iff, if_false]
      simp only [hne, ne_eq, not_false_iff, if_true]
      rw [getUser_updateUser_other _ y.id x
        (fun u => { u with totalLeadsAssigned := u.totalLeadsAssigned - 1 }) (fun u => rfl)
        (Ne.symm hne)]
      rw [getUser_updateUser_self _ y.id
        (fun u => { u with totalLeadsAssigned := u.totalLeadsAssigned + 1 }) (fun u => rfl)]
      rw [huy]
      rfl
  · intro heq
    rw [getUser] at huy
    show ((assignTo st lead y assignedBy now).1.users.find? (fun u => u.id == y.id)) = _
    simp only [assignTo, hcan, hassign, Bool.not_true, Bool.false_eq_true,
      not_false_iff, if_false]
    simp only [heq, ne_eq, not_true, if_false]
    rw [getUser_updateUser_self _ y.id
      (fun u => { u with totalLeadsAssigned := u.totalLeadsAssigned + 1 }) (fun u => rfl)]
    rw [huy]
    rfl

/-- Witness for C3 (amended): reassign `lead1` from agent 7 to agent 8
in `baseSt`; agent 7 drops from 5 to 4, agent 8 rises from 3 to 4. -/
theorem reassign_counter_update_witness :
    getUser (assignTo baseSt lead1 agentY (some adminU) 0).1 7
        = some { agentX with totalLeadsAssigned := 4 } ∧
    getUser (assignTo baseSt lead1 agentY (some adminU) 0).1 8
        = some { agentY with totalLeadsAssigned := 4 } := by
  have h := (reassign_counter_update baseSt lead1 7 agentY agentX agentY
    (some adminU) 0 rfl rfl rfl rfl).1 (by decide)
  exact ⟨h.1, h.2⟩

/-! ## C10 — change_status is not idempotent -/

/-- C10: calling `change_status` with the lead's current status still
appends a fresh `status_changed` Activity, and when the lead has an
assignee the `converted`/`won` counters are incremented again on every
invocation — two repeated `converted` calls add 2 — so the counters
count invocations, not distinct transitions. -/
theorem change_status_not_idempotent (st : St) (lead : LeadR) (a : Nat)
    (ua : UserR) (actor : Option UserR) (t1 t2 : Int)
    (hassign : lead.assignedTo = some a)
    (hua : getUser st a = some ua) :
    (actCount (changeStatus st lead lead.status actor t1) lead.id
        = actCount st lead.id + 1 ∧
      latestActType (changeStatus st lead lead.status actor t1) lead.id
        = some "status_changed") ∧
    (lead.status = "converted" →
      getUser (changeStatus st lead lead.status actor t1) a
        = some { ua with totalLeadsConverted := ua.totalLeadsConverted + 1 } ∧
      getUser (changeStatus (changeStatus st lead lead.status actor t1)
          lead lead.status actor t2) a
        = some { ua with totalLeadsConverted := ua.totalLeadsConverted + 2 }) ∧
    (lead.status = "won" →
      getUser (changeStatus st lead lead.status actor t1) a
        = some { ua with totalLeadsWon := ua.totalLeadsWon + 1 }) := by
  refine ⟨⟨?_, ?_⟩, ?_, ?_⟩
  · simp [actCount, changeStatus, List.filter_cons]
  · simp [latestActType, changeStatus, List.filter_cons]
  · intro hconv
    rw [getUser] at hua
    have hone : ∀ s : St, s.users = st.users →
        getUser (changeStatus s lead lead.status actor t1) a
          = some { ua with totalLeadsConverted := ua.totalLeadsConverted + 1 } := by
      intro s hs
      show (changeStatus s lead lead.status actor t1).users.find? (fun u => u.id == a) = _
      simp only [changeStatus, hassign, hconv, beq_self_eq_true, if_true, hs]
      rw [getUser_updateUser_self _ a
        (fun u => { u with totalLeadsConverted := u.totalLeadsConverted + 1 }) (fun u => rfl)]
      rw [hua]
      rfl
    refine ⟨hone st rfl, ?_⟩
    show (changeStatus (changeStatus st lead lead.status actor t1)
        lead lead.status actor t2).users.find? (fun u => u.id == a) = _
    have husers : (changeStatus st lead lead.status actor t1).users
        = updateUser st.users a
            (fun u => { u with totalLeadsConverted := u.totalLeadsConverted + 1 }) := by
      simp only [changeStatus, hassign, hconv, beq_self_eq_true, if_true]
    simp only [changeStatus, hassign, hconv, beq_self_eq_true, if_true, husers]
    rw [getUser_updateUser_self _ a
      (fun u => { u with totalLeadsConverted := u.totalLeadsConverted + 1 }) (fun u => rfl)]
    rw [getUser_updateUser_self _ a
      (fun u => { u with totalLeadsConverted := u.totalLeadsConverted + 1 }) (fun u => rfl)]
    rw [hua]
    rfl
  · intro hwon
    rw [getUser] at hua
    show (changeStatus st lead lead.status actor t1).users.find? (fun u => u.id == a) = _
    simp only [changeStatus, hassign, hwon, beq_self_eq_true, if_true]
    rw [if_neg (by decide)]
    rw [getUser_updateUser_self _ a
      (fun u => { u with totalLeadsWon := u.totalLeadsWon + 1 }) (fun u => rfl)]
    rw [hua]
    rfl

/-- Witness for C10 on `convLead` (status already `converted`, assignee
agent 7 with converted counter 2): one repeated call yields 3, two
yield 4, and the activity ledger grows by one `status_changed` row per
call. -/
theorem change_status_not_idempotent_witness :
    actCount (changeStatus baseSt convLead "converted" (some adminU) 0) 4 = 1 ∧
    getUser (changeStatus (changeStatus baseSt convLead "converted" (some adminU) 0)
        convLead "converted" (some adminU) 1) 7
      = some { agentX with totalLeadsConverted := 4 } := by
  have h := change_status_not_idempotent baseSt convLead 7 agentX (some adminU) 0 1
    rfl rfl
  exact ⟨h.1.1, (h.2.1 rfl).2⟩

/-! ## C1 — one Activity per completed operation (amended) -/

/-- C1 counterexample: creating a lead through `lead_create_view` logs
TWO `created` Activity rows for the new lead (one from the `post_save`
signal, one written explicitly by the view), so the Activity count rises
by 2, not by exactly 1 as the claim states. -/
theorem create_view_double_activity_cex :
    actCount (leadCreateView baseSt 1 adminU "New Person" "+20100000000" 5 10
        "new" "medium" none 0).1 20 = 2 ∧
    actCount baseSt 20 = 0 ∧
    ¬ actCount (leadCreateView baseSt 1 adminU "New Person" "+20100000000" 5 10
        "new" "medium" none 0).1 20 = actCount baseSt 20 + 1 := by
  refine ⟨by decide, by decide, by decide⟩

/-- C1 (amended): a successful `assign_to`, any `change_status`, any
`change_stage`, and an accepted single-lead soft delete each grow the
lead's Activity ledger by exactly 1 and leave a newest Activity whose
type matches the operation (`assigned`, `status_changed`,
`stage_changed`, `status_changed` respectively); but creation through
`lead_create_view` grows it by 2 (signal + explicit `created` rows),
and `add_note` grows it by 2 when no `note_added` Activity exists in
the 1-second window (signal + method rows) and by 1 otherwise, the
newest row being `note_added` either way. -/
theorem activity_ledger_per_operation (st : St) (lead : LeadR) (user actor : UserR)
    (stg : StageR) (s content nm ph status0 pr : String) (c srcId stgId : Nat)
    (assignedTo : Option Nat) (now : Int) :
    (canBeAssigned lead = true →
      actCount (assignTo st lead user (some actor) now).1 lead.id
          = actCount st lead.id + 1 ∧
      latestActType (assignTo st lead user (some actor) now).1 lead.id
          = some "assigned") ∧
    (actCount (changeStatus st lead s (some actor) now) lead.id
        = actCount st lead.id + 1 ∧
      latestActType (changeStatus st lead s (some actor) now) lead.id
        = some "status_changed") ∧
    (actCount (changeStage st lead stg (some actor) now) lead.id
        = actCount st lead.id + 1 ∧
      latestActType (changeStage st lead stg (some actor) now) lead.id
        = some "stage_changed") ∧
    (¬ lead.status = "won" →
      actCount (leadDeleteView st lead actor now).1 lead.id
          = actCount st lead.id + 1 ∧
      latestActType (leadDeleteView st lead actor now).1 lead.id
          = some "status_changed") ∧
    (st.leads.any (fun x => x.company == c && x.phone == ph) = false →
      actCount (leadCreateView st c actor nm ph srcId stgId status0 pr
          assignedTo now).1 st.nextLeadId
          = actCount st st.nextLeadId + 2 ∧
      latestActType (leadCreateView st c actor nm ph srcId stgId status0 pr
          assignedTo now).1 st.nextLeadId = some "created") ∧
    (recentNoteActivity st.activities lead.id now = false →
      actCount (addNote st lead content user now) lead.id
          = actCount st lead.id + 2 ∧
      latestActType (addNote st lead content user now) lead.id
          = some "note_added") ∧
    (recentNoteActivity st.activities lead.id now = true →
      actCount (addNote st lead content user now) lead.id
          = actCount st lead.id + 1 ∧
      latestActType (addNote st lead content user now) lead.id
          = some "note_added") := by
  refine ⟨?_, ?_, ?_, ?_, ?_, ?_, ?_⟩
  · intro hcan
    constructor
    · simp [actCount, assignTo, hcan, List.filter_cons]
    · simp [latestActType, assignTo, hcan, List.filter_cons]
  · constructor
    · simp [actCount, changeStatus, List.filter_cons]
    · simp [latestActType, changeStatus, List.filter_cons]
  · constructor
    · simp [actCount, changeStage, List.filter_cons]
    · simp [latestActType, changeStage, List.filter_cons]
  · intro hwon
    constructor
    · simp [actCount, leadDeleteView, hwon, List.filter_cons]
    · simp [latestActType, leadDeleteView, hwon, List.filter_cons]
  · intro hdup
    constructor
    · simp [actCount, leadCreateView, insertLead, hdup, List.filter_cons]
    · simp [latestActType, leadCreateView, insertLead, hdup, List.filter_cons]
  · intro hrec
    constructor
    · simp [actCount, addNote, hrec, List.filter_cons]
    · simp [latestActType, addNote, hrec, List.filter_cons]
  · intro hrec
    constructor
    · simp [actCount, addNote, hrec, List.filter_cons]
    · simp [latestActType, addNote, hrec, List.filter_cons]

/-- Witness for C1 (amended) on `baseSt`: one assignment adds one
`assigned` Activity; one fresh `add_note` adds two `note_added`
Activities. -/
theorem activity_ledger_per_operation_witness :
    actCount (assignTo baseSt lead1 agentY (some adminU) 0).1 1 = 1 ∧
    actCount (addNote baseSt lead1 "hello" adminU 0) 1 = 2 := by
  have h := activity_ledger_per_operation baseSt lead1 agentY adminU patientStage
    "contacted" "hello" "N" "+2010" "new" "medium" 1 5 10 none 0
  refine ⟨?_, ?_⟩
  · have h1 := (h.1 (by decide)).1
    simpa using h1
  · have h2 := (h.2.2.2.2.2.1 (by decide)).1
    simpa using h2

/-! ## C4 — add_note dedup window -/

/-- C4 counterexample: two `add_note` calls with identical content half
a second apart on a lead with an empty ledger produce THREE `note_added`
Activity rows (the first call itself double-logs: the signal fires and
writes before the method's own unconditional write, so the dedup window
is empty when the signal checks it), not exactly one as the claim
states; the two Note rows are as claimed. -/
theorem add_note_dedup_cex :
    noteActCount (addNote (addNote baseSt lead1 "hi" adminU 0) lead1 "hi" adminU 500) 1
      = 3 ∧
    noteCount (addNote (addNote baseSt lead1 "hi" adminU 0) lead1 "hi" adminU 500) 1
      = 2 ∧
    ¬ noteActCount (addNote (addNote baseSt lead1 "hi" adminU 0) lead1 "hi" adminU 500) 1
      = 1 := by
  refine ⟨by decide, by decide, by decide⟩

/-- C4 (amended): starting from a state with no `note_added` Activity
for the lead inside the 1-second window, two `add_note` calls with
identical content at times `t1 ≤ t2 ≤ t1 + 1s` produce exactly three
new `note_added` Activity rows — two from the first call (the Note
`post_save` signal writes before the method's unconditional write) and
one from the second call (whose signal write the dedup window
suppresses) — and exactly two new Note rows; the dedup window never
applies to Note creation nor to the method's own Activity write. -/
theorem add_note_dedup_amended (st : St) (lead : LeadR) (user : UserR)
    (content : String) (t1 t2 : Int)
    (h0 : recentNoteActivity st.activities lead.id t1 = false)
    (h12 : t1 ≤ t2) (h21 : t2 ≤ t1 + 1000) :
    noteActCount (addNote (addNote st lead content user t1) lead content user t2) lead.id
      = noteActCount st lead.id + 3 ∧
    noteCount (addNote (addNote st lead content user t1) lead content user t2) lead.id
      = noteCount st lead.id + 2 := by
  have hrec2 : ∀ acts : List ActivityR,
      recentNoteActivity
        (({ leadId := lead.id, userId := some user.id, activityType := "note_added",
            description := "Added a note", createdAt := t1 } : ActivityR) :: acts)
        lead.id t2 = true := by
    intro acts
    simp only [recentNoteActivity, List.any_cons]
    have : t1 ≥ t2 - 1000 := by omega
    simp [this]
  constructor
  · simp [noteActCount, addNote, h0, hrec2, List.filter_cons]
  · simp [noteCount, addNote, h0, hrec2, List.filter_cons]

/-- Witness for C4 (amended) at the concrete input of the
counterexample: baseline counts are 0 notes and 0 note Activities. -/
theorem add_note_dedup_amended_witness :
    noteActCount (addNote (addNote baseSt lead1 "hi twice" adminU 0)
        lead1 "hi twice" adminU 900) lead1.id = 3 ∧
    noteCount (addNote (addNote baseSt lead1 "hi twice" adminU 0)
        lead1 "hi twice" adminU 900) lead1.id = 2 := by
  have h := add_note_dedup_amended baseSt lead1 adminU "hi twice" 0 900
    (by decide) (by decide) (by decide)
  constructor
  · rw [h.1]; decide
  · rw [h.2]; decide

/-! ## C5 — visibility of soft-deleted leads -/

/-- C5 counterexample: `deletedLead` has `status = 'deleted'` yet it IS
contained in the dashboard base queryset, because `dashboard_view`
excludes by stage NAME (`stage__name__iexact` in {delete, deleted}) and
this lead's stage is named `Lead` — contradicting the claim that every
deleted-status lead is excluded from dashboard aggregation. -/
theorem deleted_lead_in_dashboard_cex :
    deletedLead.status = "deleted" ∧ deletedLead ∈ dashboardLeadsQs baseSt 1 := by
  refine ⟨rfl, by decide⟩

/-- C5 (amended): a lead with `status = 'deleted'` remains fetchable by
id through the company-scoped detail lookup and is excluded from the
list and kanban base querysets, but the dashboard base queryset excludes
only by stage name: whenever the lead's stage is not named
`delete`/`deleted` (case-insensitively), the soft-deleted lead still
participates in dashboard aggregation. -/
theorem soft_deleted_lead_visibility (st : St) (lead : LeadR) (c pk : Nat)
    (hfind : st.leads.find? (fun l => l.id == pk && l.company == c) = some lead)
    (hdel : lead.status = "deleted") :
    getObjectOr404 st c pk = FetchOutcome.found lead ∧
    lead ∉ leadListQuery st c ∧
    lead ∉ leadKanbanQuery st c ∧
    (stageNameIs st lead "delete" = false → stageNameIs st lead "deleted" = false →
      lead ∈ dashboardLeadsQs st c) := by
  have hmem : lead ∈ st.leads := List.mem_of_find?_eq_some hfind
  have hpred := List.find?_some hfind
  simp only [Bool.and_eq_true, beq_iff_eq] at hpred
  refine ⟨?_, ?_, ?_, ?_⟩
  · simp [getObjectOr404, hfind]
  · intro hin
    rw [leadListQuery, List.mem_filter] at hin
    simp [hdel] at hin
  · intro hin
    rw [leadKanbanQuery, List.mem_filter] at hin
    simp [hdel] at hin
  · intro h1 h2
    rw [dashboardLeadsQs, List.mem_filter]
    exact ⟨hmem, by simp [hpred.2, h1, h2]⟩

/-- Witness for C5 (amended) on `deletedLead` in `baseSt`. -/
theorem soft_deleted_lead_visibility_witness :
    getObjectOr404 baseSt 1 3 = FetchOutcome.found deletedLead ∧
    deletedLead ∉ leadListQuery baseSt 1 ∧
    deletedLead ∉ leadKanbanQuery baseSt 1 ∧
    deletedLead ∈ dashboardLeadsQs baseSt 1 := by
  have h := soft_deleted_lead_visibility baseSt deletedLead 1 3 (by decide) rfl
  exact ⟨h.1, h.2.1, h.2.2.1, h.2.2.2 (by decide) (by decide)⟩

/-! ## C6 — deleting a won lead -/

/-- C6 counterexample: the bulk-delete action run by an admin on the won
lead (id 2) soft-deletes it — afterwards its status is `deleted`, not
`won`, and a new Activity row was written — contradicting the claim that
the bulk path also rejects won leads with no state change. -/
theorem bulk_delete_won_lead_cex :
    ((bulkDeleteAction baseSt [2] adminU 1 0).1.leads.find?
        (fun l => l.id == 2)).map (fun l => l.status) = some "deleted" ∧
    ¬ ((bulkDeleteAction baseSt [2] adminU 1 0).1.leads.find?
        (fun l => l.id == 2)).map (fun l => l.status) = some "won" ∧
    ¬ actCount (bulkDeleteAction baseSt [2] adminU 1 0).1 2 = actCount baseSt 2 := by
  refine ⟨by decide, by decide⟩

/-- C6 (amended): the single-lead delete view rejects a won lead with
the whole state unchanged and no Activity written, but the bulk delete
action performs no won-check: an admin bulk-deleting a selection that
contains a won lead sets that lead's status to `deleted` (and logs an
Activity for it). -/
theorem delete_won_lead_paths (st : St) (lead : LeadR) (actor : UserR)
    (ids : List Nat) (c : Nat) (now : Int)
    (hwon : lead.status = "won") :
    leadDeleteView st lead actor now = (st, false) ∧
    (isAdmin actor = true → ids.contains lead.id = true → lead.company = c →
      st.leads.find? (fun l => l.id == lead.id) = some lead →
      ((bulkDeleteAction st ids actor c now).1.leads.find?
        (fun l => l.id == lead.id)) = some { lead with status := "deleted" }) := by
  constructor
  · simp [leadDeleteView, hwon]
  · intro hadm hids hcomp hfind
    have hmem : lead ∈ st.leads := List.mem_of_find?_eq_some hfind
    have hcond : (ids.contains lead.id && lead.company == c) = true := by
      rw [Bool.and_eq_true]
      exact ⟨hids, by simp [hcomp]⟩
    have hsel : lead ∈ bulkSelection st ids c := by
      rw [bulkSelection, List.mem_filter]
      exact ⟨hmem, hcond⟩
    have hlen : ((bulkSelection st ids c).length == 0) = false := by
      simp only [beq_eq_false_iff_ne, ne_eq, List.length_eq_zero]
      intro hnil
      rw [hnil] at hsel
      exact (List.not_mem_nil lead) hsel
    simp only [bulkDeleteAction, hlen, Bool.false_eq_true, if_false, hadm,
      Bool.not_true]
    rw [find?_leadMap _ (by
      intro x
      split <;> rfl)]
    rw [hfind]
    rw [Option.map_some']
    rw [if_pos hcond]

/-- Witness for C6 (amended) on `wonLead` in `baseSt`. -/
theorem delete_won_lead_paths_witness :
    leadDeleteView baseSt wonLead adminU 0 = (baseSt, false) ∧
    ((bulkDeleteAction baseSt [2] adminU 1 0).1.leads.find?
      (fun l => l.id == wonLead.id)) = some { wonLead with status := "deleted" } := by
  have h := delete_won_lead_paths baseSt wonLead adminU [2] 1 0 rfl
  exact ⟨h.1, h.2 (by decide) (by decide) rfl (by decide)⟩

/-! ## C7 — tenant isolation of the by-id fetch -/

/-- C7: for a caller scoped to company `cA`, fetching id `pkB` — which
only exists in another company `cB` — yields exactly the same
`notFound` outcome as fetching an id `pkNone` that matches no lead at
all; the two runs are indistinguishable and no `forbidden`-style result
exists.  This covers both `get_object_or_404(Lead, pk=..., company=...)`
in `lead_detail_view` and the identical lookup of the
`same_company_required` decorator. -/
theorem tenant_isolation_not_found (st : St) (cA cB pkB pkNone : Nat)
    (lB : LeadR)
    (hB : lB ∈ st.leads ∧ lB.id = pkB ∧ lB.company = cB)
    (hBA : cB ≠ cA)
    (hA : ∀ l ∈ st.leads, l.id = pkB → l.company ≠ cA)
    (hN : ∀ l ∈ st.leads, l.id ≠ pkNone) :
    getObjectOr404 st cA pkB = FetchOutcome.notFound ∧
    getObjectOr404 st cA pkNone = FetchOutcome.notFound ∧
    getObjectOr404 st cA pkB = getObjectOr404 st cA pkNone := by
  have h1 : st.leads.find? (fun l => l.id == pkB && l.company == cA) = none := by
    rw [List.find?_eq_none]
    intro l hl
    simp only [Bool.and_eq_true, beq_iff_eq, not_and]
    exact hA l hl
  have h2 : st.leads.find? (fun l => l.id == pkNone && l.company == cA) = none := by
    rw [List.find?_eq_none]
    intro l hl
    simp only [Bool.and_eq_true, beq_iff_eq, not_and]
    intro hid
    exact absurd hid (hN l hl)
  refine ⟨?_, ?_, ?_⟩
  · simp [getObjectOr404, h1]
  · simp [getObjectOr404, h2]
  · simp [getObjectOr404, h1, h2]

/-- Witness for C7: in `baseSt`, company 1 fetching the company-2 lead
(id 6) and fetching the unused id 99 both come back `notFound`. -/
theorem tenant_isolation_not_found_witness :
    getObjectOr404 baseSt 1 6 = FetchOutcome.notFound ∧
    getObjectOr404 baseSt 1 99 = FetchOutcome.notFound := by
  have h := tenant_isolation_not_found baseSt 1 2 6 99 otherCompanyLead
    ⟨by decide, rfl, rfl⟩ (by decide) (by decide) (by decide)
  exact ⟨h.1, h.2.1⟩

/-! ## C9 — rate formulas and the zero-assigned guard -/

/-- C9: in the dashboard's live per-actor computation and in the User
model's cached-counter methods alike, the conversion rate is
`converted / assigned * 100` and the win rate is `won / assigned * 100`
whenever `assigned` is nonzero, and both rates are exactly 0 when
`assigned = 0` — no division is ever attempted on a zero denominator. -/
theorem rate_formulas_zero_safe (st : St) (c : Nat) (ru u : UserR) :
    ((dashboardUserStats st c ru).assigned = 0 →
      (dashboardUserStats st c ru).conversionRate = 0 ∧
      (dashboardUserStats st c ru).winRate = 0) ∧
    ((dashboardUserStats st c ru).assigned ≠ 0 →
      (dashboardUserStats st c ru).conversionRate
        = ((dashboardUserStats st c ru).converted : ℚ)
            / ((dashboardUserStats st c ru).assigned : ℚ) * 100 ∧
      (dashboardUserStats st c ru).winRate
        = ((dashboardUserStats st c ru).won : ℚ)
            / ((dashboardUserStats st c ru).assigned : ℚ) * 100) ∧
    (u.totalLeadsAssigned = 0 → getConversionRate u = 0 ∧ getWinRate u = 0) ∧
    (u.totalLeadsAssigned ≠ 0 →
      getConversionRate u
        = (u.totalLeadsConverted : ℚ) / (u.totalLeadsAssigned : ℚ) * 100 ∧
      getWinRate u = (u.totalLeadsWon : ℚ) / (u.totalLeadsAssigned : ℚ) * 100) := by
  refine ⟨?_, ?_, ?_, ?_⟩
  · intro h0
    simp only [dashboardUserStats] at h0 ⊢
    rw [h0]
    simp
  · intro hpos
    simp only [dashboardUserStats] at hpos ⊢
    have : 0 < _ := Nat.pos_of_ne_zero hpos
    rw [if_pos this, if_pos this]
    exact ⟨rfl, rfl⟩
  · intro h0
    simp [getConversionRate, getWinRate, h0]
  · intro hpos
    simp [getConversionRate, getWinRate, hpos]

/-- Witness for C9: `freshAgent` has no assigned leads, so both cached
rates are 0; in `baseSt` agent 8 has no company-1 leads assigned on the
dashboard either, so the live rates are 0 too. -/
theorem rate_formulas_zero_safe_witness :
    getConversionRate freshAgent = 0 ∧ getWinRate freshAgent = 0 ∧
    (dashboardUserStats baseSt 3 agentY).conversionRate = 0 := by
  have h := rate_formulas_zero_safe baseSt 3 agentY freshAgent
  have hz := h.2.2.1 rfl
  have hd := h.1 (by decide)
  exact ⟨hz.1, hz.2, hd.1⟩

/-! ## C8 — webhook redelivery -/

/-- The function `getOrCreateSource` only touches the sources table. -/
lemma getOrCreateSource_leads (st : St) (n : String) :
    ((getOrCreateSource st n).1).leads = st.leads := by
  cases h : st.sources.find? (fun s => s.name == n) <;> simp [getOrCreateSource, h]

/-- The function `getOrCreateSource` leaves messages unchanged. -/
lemma getOrCreateSource_messages (st : St) (n : String) :
    ((getOrCreateSource st n).1).messages = st.messages := by
  cases h : st.sources.find? (fun s => s.name == n) <;> simp [getOrCreateSource, h]

/-- The function `getOrCreateSource` leaves configs unchanged. -/
lemma getOrCreateSource_configs (st : St) (n : String) :
    ((getOrCreateSource st n).1).configs = st.configs := by
  cases h : st.sources.find? (fun s => s.name == n) <;> simp [getOrCreateSource, h]

/-- The function `channelUpsert` only touches channels: leads survive. -/
lemma channelUpsert_leads (st : St) (c lid : Nat) (cid : String) (now : Int) :
    (channelUpsert st c lid cid now).leads = st.leads := by
  cases h : st.channels.find? (fun ch =>
      ch.companyId == c && ch.leadId == lid && ch.channelType == "whatsapp") <;>
    simp [channelUpsert, h]

/-- The function `channelUpsert` leaves messages unchanged. -/
lemma channelUpsert_messages (st : St) (c lid : Nat) (cid : String) (now : Int) :
    (channelUpsert st c lid cid now).messages = st.messages := by
  cases h : st.channels.find? (fun ch =>
      ch.companyId == c && ch.leadId == lid && ch.channelType == "whatsapp") <;>
    simp [channelUpsert, h]

/-- The function `channelUpsert` leaves configs unchanged. -/
lemma channelUpsert_configs (st : St) (c lid : Nat) (cid : String) (now : Int) :
    (channelUpsert st c lid cid now).configs = st.configs := by
  cases h : st.channels.find? (fun ch =>
      ch.companyId == c && ch.leadId == lid && ch.channelType == "whatsapp") <;>
    simp [channelUpsert, h]

/-- The function `webhookStoreMessage` leaves leads unchanged. -/
lemma webhookStoreMessage_leads (st : St) (config : ConfigR) (lead : LeadR)
    (message messageId : String) (mu mt : Option String) (now : Int) :
    (webhookStoreMessage st config lead message messageId mu mt now).leads
      = st.leads := by
  simp [webhookStoreMessage, channelUpsert_leads]

/-- The function `webhookStoreMessage` prepends the new incoming Message. -/
lemma webhookStoreMessage_messages (st : St) (config : ConfigR) (lead : LeadR)
    (message messageId : String) (mu mt : Option String) (now : Int) :
    (webhookStoreMessage st config lead message messageId mu mt now).messages
      = ({ leadId := lead.id, userId := none, direction := "incoming",
           content := (if message != "" then message else "[Media]"),
           mediaUrl := mu, mediaType := mt, status := "delivered",
           woztellMessageId := messageId } : MessageR) :: st.messages := by
  simp [webhookStoreMessage, channelUpsert_messages]

/-- The function `webhookStoreMessage` leaves configs unchanged. -/
lemma webhookStoreMessage_configs (st : St) (config : ConfigR) (lead : LeadR)
    (message messageId : String) (mu mt : Option String) (now : Int) :
    (webhookStoreMessage st config lead message messageId mu mt now).configs
      = st.configs := by
  simp [webhookStoreMessage, channelUpsert_configs]

/-- One webhook delivery of a text payload without a `name` field, for a
`(company, phone)` whose lead already exists, answers 200, leaves the
lead table and config table untouched, and prepends exactly one
incoming Message carrying the provider id — with no dedup lookup. -/
lemma webhookReceiver_existing (st : St) (sek ph msg mid : String) (cfg : ConfigR)
    (lead : LeadR) (t : Int)
    (hc : st.configs.find? (fun c => c.webhookSecret == sek && c.isActive) = some cfg)
    (hph : (ph == "") = false) (hmsg : (msg == "") = false)
    (hlead : st.leads.find? (fun l =>
      l.company == cfg.companyId && l.phone == ph) = some lead) :
    ∃ stR, webhookReceiver st sek ph "" msg mid none none t = (stR, 200) ∧
      stR.leads = st.leads ∧ stR.configs = st.configs ∧
      stR.messages = ({ leadId := lead.id, userId := none, direction := "incoming",
                        content := msg, mediaUrl := none, mediaType := none,
                        status := "delivered",
                        woztellMessageId := mid } : MessageR) :: st.messages := by
  rcases hgs : getOrCreateSource st "WhatsApp" with ⟨stSrc, sid⟩
  have hsl : stSrc.leads = st.leads := by
    have := getOrCreateSource_leads st "WhatsApp"
    rw [hgs] at this
    exact this
  have hsm : stSrc.messages = st.messages := by
    have := getOrCreateSource_messages st "WhatsApp"
    rw [hgs] at this
    exact this
  have hsc : stSrc.configs = st.configs := by
    have := getOrCreateSource_configs st "WhatsApp"
    rw [hgs] at this
    exact this
  have hlead2 : stSrc.leads.find? (fun l =>
      l.company == cfg.companyId && l.phone == ph) = some lead := by rw [hsl]; exact hlead
  have hred : webhookReceiver st sek ph "" msg mid none none t
      = (webhookStoreMessage { stSrc with leads := stSrc.leads } cfg lead
          msg mid none none t, 200) := by
    simp only [webhookReceiver, hc, hph, Bool.false_eq_true, if_false, hgs, hlead2,
      hmsg, Bool.false_and, bne_self_eq_false, Bool.false_and, if_false]
  refine ⟨_, hred, ?_, ?_, ?_⟩
  · rw [webhookStoreMessage_leads]
    exact hsl
  · rw [webhookStoreMessage_configs]
    exact hsc
  · rw [webhookStoreMessage_messages]
    have hm : (msg != "") = true := by simp [bne, hmsg]
    rw [hm]
    simp only [if_true, hsm]

/-- C8 counterexample: delivering the identical payload (same phone,
same provider `message_id` "m1") twice for `lead1`'s phone leaves
exactly one Lead for (company 1, that phone) but creates TWO Message
rows carrying provider id "m1" — the webhook performs no provider-id
dedup, contradicting the claim that no duplicate Message row is
created. -/
theorem webhook_duplicate_message_cex :
    msgCountByWid (webhookReceiver
      (webhookReceiver baseSt "sek" "+201234567890" "" "hi" "m1" none none 0).1
      "sek" "+201234567890" "" "hi" "m1" none none 1).1 "m1" = 2 ∧
    leadCountByPhone (webhookReceiver
      (webhookReceiver baseSt "sek" "+201234567890" "" "hi" "m1" none none 0).1
      "sek" "+201234567890" "" "hi" "m1" none none 1).1 1 "+201234567890" = 1 ∧
    ¬ msgCountByWid (webhookReceiver
      (webhookReceiver baseSt "sek" "+201234567890" "" "hi" "m1" none none 0).1
      "sek" "+201234567890" "" "hi" "m1" none none 1).1 "m1" = 1 := by
  refine ⟨by decide, by decide, by decide⟩

/-- C8 (amended): when a Lead already exists for (company, phone),
delivering the same text payload twice leaves the lead table — hence
the single Lead row for that phone — untouched, but appends TWO Message
rows with the same provider message id (there is no provider-id dedup);
and when no Lead exists for the phone, each delivery fails with a 500
and writes nothing, because the webhook's `get_or_create` defaults omit
the mandatory `stage` foreign key. -/
theorem webhook_redelivery_behavior (st st3 : St)
    (sek ph msg mid sek3 ph3 nm3 msg3 mid3 : String) (cfg : ConfigR)
    (lead : LeadR) (t1 t2 t3 : Int)
    (hc : st.configs.find? (fun c => c.webhookSecret == sek && c.isActive) = some cfg)
    (hph : ph ≠ "") (hmsg : msg ≠ "")
    (hlead : st.leads.find? (fun l =>
      l.company == cfg.companyId && l.phone == ph) = some lead) :
    ((webhookReceiver (webhookReceiver st sek ph "" msg mid none none t1).1
        sek ph "" msg mid none none t2).1.leads = st.leads ∧
      leadCountByPhone (webhookReceiver
          (webhookReceiver st sek ph "" msg mid none none t1).1
          sek ph "" msg mid none none t2).1 cfg.companyId ph
        = leadCountByPhone st cfg.companyId ph ∧
      msgCountByWid (webhookReceiver
          (webhookReceiver st sek ph "" msg mid none none t1).1
          sek ph "" msg mid none none t2).1 mid
        = msgCountByWid st mid + 2) ∧
    (∀ cfg3 : ConfigR,
      st3.configs.find? (fun c => c.webhookSecret == sek3 && c.isActive) = some cfg3 →
      ph3 ≠ "" → msg3 ≠ "" →
      st3.leads.find? (fun l =>
        l.company == cfg3.companyId && l.phone == ph3) = none →
      webhookReceiver st3 sek3 ph3 nm3 msg3 mid3 none none t3 = (st3, 500)) := by
  have hphb : (ph == "") = false := by simp [hph]
  have hmsgb : (msg == "") = false := by simp [hmsg]
  obtain ⟨stR1, he1, hl1, hcfg1, hm1⟩ :=
    webhookReceiver_existing st sek ph msg mid cfg lead t1 hc hphb hmsgb hlead
  have hc2 : stR1.configs.find? (fun c =>
      c.webhookSecret == sek && c.isActive) = some cfg := by rw [hcfg1]; exact hc
  have hlead2 : stR1.leads.find? (fun l =>
      l.company == cfg.companyId && l.phone == ph) = some lead := by
    rw [hl1]; exact hlead
  obtain ⟨stR2, he2, hl2, hcfg2, hm2⟩ :=
    webhookReceiver_existing stR1 sek ph msg mid cfg lead t2 hc2 hphb hmsgb hlead2
  constructor
  · rw [he1]
    simp only
    rw [he2]
    simp only
    refine ⟨by rw [hl2, hl1], ?_, ?_⟩
    · rw [leadCountByPhone, hl2, hl1]
      rfl
    · rw [msgCountByWid, hm2, hm1]
      simp [msgCountByWid, List.filter_cons]
  · intro cfg3 h3c h3ph h3msg h3none
    have h3phb : (ph3 == "") = false := by simp [h3ph]
    have h3msgb : (msg3 == "") = false := by simp [h3msg]
    rcases hgs : getOrCreateSource st3 "WhatsApp" with ⟨stS, sid⟩
    have hslS : stS.leads = st3.leads := by
      have := getOrCreateSource_leads st3 "WhatsApp"
      rw [hgs] at this
      exact this
    have h3none2 : stS.leads.find? (fun l =>
        l.company == cfg3.companyId && l.phone == ph3) = none := by
      rw [hslS]; exact h3none
    simp only [webhookReceiver, h3c, h3phb, Bool.false_eq_true, if_false, hgs,
      h3none2, h3msgb, Bool.false_and, insertLead]

/-- Witness for C8 (amended): redelivery of "m2" for the existing lead
phone yields two "m2" Message rows and an unchanged lead table; a
delivery for the unknown phone +209999999999 answers 500 and changes
nothing. -/
theorem webhook_redelivery_behavior_witness :
    msgCountByWid (webhookReceiver
        (webhookReceiver baseSt "sek" "+201234567890" "" "yo" "m2" none none 0).1
        "sek" "+201234567890" "" "yo" "m2" none none 1).1 "m2" = 2 ∧
    webhookReceiver baseSt "sek" "+209999999999" "Foo" "hello" "m9" none none 0
      = (baseSt, 500) := by
  have h := webhook_redelivery_behavior baseSt baseSt
    "sek" "+201234567890" "yo" "m2" "sek" "+209999999999" "Foo" "hello" "m9"
    cfg1 lead1 0 1 0 (by decide) (by decide) (by decide) (by decide)
  refine ⟨?_, ?_⟩
  · rw [h.1.2.2]
    decide
  · exact h.2 cfg1 (by decide) (by decide) (by decide) (by decide)
